import Mathlib

/-!
Shallow embedding of `src/JRP_tariff_mundell_fleming.py`: a closed-form
linear Mundell-Fleming policy-shock evaluator.  The Python script reads four
inputs (two sliders in [0,5] and two selectboxes of three string options
each), computes shift terms and a new equilibrium through fixed linear
coefficients, assembles a narrative sentence list, and samples the IS and LM
curves at 100 linearly spaced points of [95,105].

Numbers are embedded as exact rationals (the script's arithmetic is plain
linear arithmetic on decimal literals); the `:.1f` number formatting inside
narrative f-strings is abstracted to `toString`, which no claim's property
depends on.  Dictionary lookups (`descriptions_map[...]`, `monetary_map[...]`)
are embedded as association-list lookups returning `Option`, so that totality
over the enumerated option sets is a provable statement rather than an
assumption.
-/

namespace JRP

/-- Base output level, `Y0 = 100` (line 47). -/
def Y0 : ℚ := 100

/-- Base interest rate, `r0 = 4.0` (line 48). -/
def r0 : ℚ := 4.0

/-- Base exchange rate index, `E0 = 1.0` (line 49). -/
def E0 : ℚ := 1.0

/-- The three options of the fiscal-response selectbox (line 22). -/
def fiscal_options : List String :=
  ["Neutral", "Debt Paydown (Contractionary)", "Tax Cut (Mildly Expansionary)"]

/-- The three options of the monetary-policy selectbox (line 23). -/
def monetary_options : List String :=
  ["Neutral", "Eases Rates", "Tightens Rates"]

/-- `net_exports_boost = tariff_shock * 0.6` (line 57). -/
def net_exports_boost (tariff_shock : ℚ) : ℚ := tariff_shock * 0.6

/-- `fiscal_shift`: starts at 0, set to -1.0 for debt paydown and 0.5 for a
tax cut (lines 58-62). -/
def fiscal_shift (fiscal_response : String) : ℚ :=
  if fiscal_response = "Debt Paydown (Contractionary)" then -1.0
  else if fiscal_response = "Tax Cut (Mildly Expansionary)" then 0.5
  else 0

/-- `LM_shift`: starts at 0, set to 1.0 for easing and -1.0 for tightening
(lines 84-88). -/
def LM_shift (monetary_policy : String) : ℚ :=
  if monetary_policy = "Eases Rates" then 1.0
  else if monetary_policy = "Tightens Rates" then -1.0
  else 0

/-- The derived equilibrium values of one evaluation (lines 57-99). -/
structure EquilibriumResult where
  net_exports_boost : ℚ
  fiscal_shift : ℚ
  IS_shift : ℚ
  LM_shift : ℚ
  Y_new : ℚ
  r_new : ℚ
  E_change : ℚ
  E_new : ℚ
deriving DecidableEq, Repr

/-- The evaluator core, lines 57-99 of the script:
`IS_shift = net_exports_boost - ad_contraction + fiscal_shift`,
`Y_new = Y0 + 0.8*IS_shift + 0.5*LM_shift`,
`r_new = r0 - 0.3*LM_shift + 0.2*IS_shift`,
`E_change = -0.5*(r0 - r_new) + 0.3*net_exports_boost`,
`E_new = E0 + E_change`. -/
def evaluate (tariff_shock ad_contraction : ℚ)
    (fiscal_response monetary_policy : String) : EquilibriumResult :=
  let nx := net_exports_boost tariff_shock
  let fs := fiscal_shift fiscal_response
  let is_s := nx - ad_contraction + fs
  let lm := LM_shift monetary_policy
  let y := Y0 + 0.8 * is_s + 0.5 * lm
  let r := r0 - 0.3 * lm + 0.2 * is_s
  let de := -0.5 * (r0 - r) + 0.3 * nx
  { net_exports_boost := nx
    fiscal_shift := fs
    IS_shift := is_s
    LM_shift := lm
    Y_new := y
    r_new := r
    E_change := de
    E_new := E0 + de }

/-- The valid input domain the UI enforces: sliders clamped to [0,5] and the
selectboxes restricted to their option lists. -/
def ValidInputs (tariff_shock ad_contraction : ℚ)
    (fiscal_response monetary_policy : String) : Prop :=
  0 ≤ tariff_shock ∧ tariff_shock ≤ 5 ∧
  0 ≤ ad_contraction ∧ ad_contraction ≤ 5 ∧
  fiscal_response ∈ fiscal_options ∧ monetary_policy ∈ monetary_options

instance (t ad : ℚ) (f m : String) : Decidable (ValidInputs t ad f m) := by
  unfold ValidInputs; infer_instance

/-- Tariff sentence (line 115), always appended first. -/
def tariff_text (tariff_shock nx : ℚ) : String :=
  "A tariff shock of " ++ toString tariff_shock ++
  "% of GDP boosts net exports by " ++ toString nx ++
  "%, which tends to increase output and support the exchange rate."

/-- AD-drag sentence (line 120), appended only when `ad_contraction > 0`. -/
def ad_text (ad_contraction : ℚ) : String :=
  "However, higher prices lead to an aggregate demand contraction of " ++
  toString ad_contraction ++ "% of GDP, offsetting some of the initial boost."

/-- The fiscal narrative dictionary (lines 124-128). -/
def descriptions_map : List (String × String) :=
  [("Debt Paydown (Contractionary)",
    "The government uses tariff revenue to pay down debt, which is contractionary and further reduces output."),
   ("Tax Cut (Mildly Expansionary)",
    "The government implements a mild tax cut, providing a partial offset to weaker demand."),
   ("Neutral", "There is no significant fiscal policy change.")]

/-- The monetary narrative dictionary (lines 132-136). -/
def monetary_map : List (String × String) :=
  [("Neutral", "The central bank does not respond, leaving the interest rate relatively unchanged."),
   ("Eases Rates", "The central bank eases monetary policy, lowering interest rates and stimulating output."),
   ("Tightens Rates", "The central bank tightens policy, raising interest rates and reducing output.")]

/-- FX sentence for `E_change > 0` (line 141). -/
def strengthen_text : String :=
  "On net, the exchange rate is expected to strengthen due to improving net exports and/or higher interest rates."

/-- FX sentence for `E_change < 0` (line 143). -/
def weaken_text : String :=
  "On net, the exchange rate is expected to weaken due to lower interest rates or weaker domestic demand."

/-- FX sentence for `E_change = 0` (line 145). -/
def stable_text : String :=
  "The exchange rate is expected to remain broadly stable, as opposing forces balance out."

/-- The three possible fiscal narrative sentences (values of
`descriptions_map`). -/
def fiscal_sentences : List String := descriptions_map.map Prod.snd

/-- The three possible monetary narrative sentences (values of
`monetary_map`). -/
def monetary_sentences : List String := monetary_map.map Prod.snd

/-- The three possible FX summary sentences (lines 140-145). -/
def fx_sentences : List String := [strengthen_text, weaken_text, stable_text]

/-- FX summary selection by the sign of `E_change` (lines 140-145). -/
def fx_outcome (E_change : ℚ) : String :=
  if E_change > 0 then strengthen_text
  else if E_change < 0 then weaken_text
  else stable_text

/-- The narrative list (lines 112-146): tariff sentence, optional AD-drag
sentence, fiscal dictionary lookup, monetary dictionary lookup, FX summary.
The dictionary accesses can fail outside the enumerated sets, hence
`Option`. -/
def description (tariff_shock ad_contraction E_change : ℚ)
    (fiscal_response monetary_policy : String) : Option (List String) :=
  let d1 := [tariff_text tariff_shock (net_exports_boost tariff_shock)]
  let d2 := if ad_contraction > 0 then d1 ++ [ad_text ad_contraction] else d1
  match (descriptions_map.lookup fiscal_response),
      (monetary_map.lookup monetary_policy) with
  | some ft, some mt => some (d2 ++ [ft] ++ [mt] ++ [fx_outcome E_change])
  | _, _ => none

/-- `Y_vals = np.linspace(95, 105, 100)` (line 151): 100 points
`95 + 10*i/99`. -/
def Y_vals : List ℚ := (List.range 100).map (fun i : ℕ => 95 + 10 * (i : ℚ) / 99)

/-- `IS_curve = r0 - 0.5 * (Y_vals - Y0) + IS_shift` pointwise (line 152). -/
def IS_curve (is_s Y : ℚ) : ℚ := r0 - 0.5 * (Y - Y0) + is_s

/-- `LM_curve = r0 + 0.7 * (Y_vals - Y0) + LM_shift` pointwise (line 153). -/
def LM_curve (lm Y : ℚ) : ℚ := r0 + 0.7 * (Y - Y0) + lm

/-- The plotted curve sample: the (Y, IS, LM) triples of lines 151-153. -/
def curve_sample (is_s lm : ℚ) : List (ℚ × ℚ × ℚ) :=
  Y_vals.map (fun Y => (Y, IS_curve is_s Y, LM_curve lm Y))

/-- One full run: equilibrium, narrative, curve sample.  `none` exactly when
a narrative dictionary access would raise a `KeyError`. -/
def run (tariff_shock ad_contraction : ℚ)
    (fiscal_response monetary_policy : String) :
    Option (EquilibriumResult × List String × List (ℚ × ℚ × ℚ)) :=
  let R := evaluate tariff_shock ad_contraction fiscal_response monetary_policy
  match description tariff_shock ad_contraction R.E_change
      fiscal_response monetary_policy with
  | some d => some (R, d, curve_sample R.IS_shift R.LM_shift)
  | none => none

/-! ### Unfolding lemmas for the evaluator fields -/

lemma fiscal_shift_neutral : fiscal_shift "Neutral" = 0 := rfl

lemma fiscal_shift_debt : fiscal_shift "Debt Paydown (Contractionary)" = -1.0 := rfl

lemma fiscal_shift_tax : fiscal_shift "Tax Cut (Mildly Expansionary)" = 0.5 := rfl

lemma LM_shift_neutral : LM_shift "Neutral" = 0 := rfl

lemma LM_shift_ease : LM_shift "Eases Rates" = 1.0 := rfl

lemma LM_shift_tighten : LM_shift "Tightens Rates" = -1.0 := rfl

lemma evaluate_net (t ad : ℚ) (f m : String) :
    (evaluate t ad f m).net_exports_boost = net_exports_boost t := rfl

lemma evaluate_fiscal (t ad : ℚ) (f m : String) :
    (evaluate t ad f m).fiscal_shift = fiscal_shift f := rfl

lemma evaluate_IS (t ad : ℚ) (f m : String) :
    (evaluate t ad f m).IS_shift = net_exports_boost t - ad + fiscal_shift f := rfl

lemma evaluate_LM (t ad : ℚ) (f m : String) :
    (evaluate t ad f m).LM_shift = LM_shift m := rfl

lemma evaluate_Y (t ad : ℚ) (f m : String) :
    (evaluate t ad f m).Y_new =
      Y0 + 0.8 * (net_exports_boost t - ad + fiscal_shift f) + 0.5 * LM_shift m := rfl

lemma evaluate_r (t ad : ℚ) (f m : String) :
    (evaluate t ad f m).r_new =
      r0 - 0.3 * LM_shift m + 0.2 * (net_exports_boost t - ad + fiscal_shift f) := rfl

lemma evaluate_Ech (t ad : ℚ) (f m : String) :
    (evaluate t ad f m).E_change =
      -0.5 * (r0 - (r0 - 0.3 * LM_shift m +
        0.2 * (net_exports_boost t - ad + fiscal_shift f))) +
      0.3 * net_exports_boost t := rfl

lemma evaluate_Enew (t ad : ℚ) (f m : String) :
    (evaluate t ad f m).E_new =
      E0 + (-0.5 * (r0 - (r0 - 0.3 * LM_shift m +
        0.2 * (net_exports_boost t - ad + fiscal_shift f))) +
      0.3 * net_exports_boost t) := rfl

/-! ### Facts about the curve sample -/

lemma Y_vals_length : Y_vals.length = 100 := by simp [Y_vals]

lemma Y_vals_head : Y_vals.head? = some 95 := by
  rw [Y_vals, List.head?_map, List.range_succ_eq_map]
  norm_num

lemma Y_vals_last : Y_vals.getLast? = some 105 := by
  rw [Y_vals, List.getLast?_map]
  norm_num [List.getLast?_range]

lemma Y_vals_chain_lt : List.Chain' (· < ·) Y_vals := by
  unfold Y_vals
  rw [List.chain'_iff_get]
  intro i h
  simp only [List.length_map, List.length_range] at h
  simp only [List.get_eq_getElem, List.getElem_map, List.getElem_range]
  push_cast
  linarith

lemma Y_vals_chain_step : List.Chain' (fun a b => b = a + 10 / 99) Y_vals := by
  unfold Y_vals
  rw [List.chain'_iff_get]
  intro i h
  simp only [List.length_map, List.length_range] at h
  simp only [List.get_eq_getElem, List.getElem_map, List.getElem_range]
  push_cast
  ring

lemma curve_sample_fst (is_s lm : ℚ) :
    (curve_sample is_s lm).map (fun p => p.1) = Y_vals := by
  simp only [curve_sample, List.map_map]
  exact List.map_id _

/-! ### String machinery for the narrative sentences

Two of the narrative sentences interpolate numbers, so they are not
string literals; they are told apart from every other sentence by their
first character. -/

lemma data_head_ne (a b : String) (h : a.data.head? ≠ b.data.head?) : a ≠ b :=
  fun e => h (by rw [e])

lemma tariff_text_head (t nx : ℚ) : (tariff_text t nx).data.head? = some 'A' := by
  simp [tariff_text, String.data_append]

lemma ad_text_head (a : ℚ) : (ad_text a).data.head? = some 'H' := by
  simp [ad_text, String.data_append]

lemma tariff_text_ne (t nx : ℚ) (s : String) (h : s.data.head? ≠ some 'A') :
    tariff_text t nx ≠ s :=
  data_head_ne _ _ (by rw [tariff_text_head]; exact fun e => h e.symm)

lemma ad_text_ne (a : ℚ) (s : String) (h : s.data.head? ≠ some 'H') :
    ad_text a ≠ s :=
  data_head_ne _ _ (by rw [ad_text_head]; exact fun e => h e.symm)

lemma tariff_text_not_mem (t nx : ℚ) (l : List String)
    (h : ∀ s ∈ l, s.data.head? ≠ some 'A') : tariff_text t nx ∉ l :=
  fun hm => tariff_text_ne t nx _ (h _ hm) rfl

lemma ad_text_not_mem (a : ℚ) (l : List String)
    (h : ∀ s ∈ l, s.data.head? ≠ some 'H') : ad_text a ∉ l :=
  fun hm => ad_text_ne a _ (h _ hm) rfl

lemma fx_outcome_mem (E : ℚ) : fx_outcome E ∈ fx_sentences := by
  unfold fx_outcome
  split
  · decide
  split
  · decide
  · decide

lemma fx_outcome_not_fiscal (E : ℚ) : fx_outcome E ∉ fiscal_sentences := by
  unfold fx_outcome
  split
  · decide
  split
  · decide
  · decide

lemma fx_outcome_not_monetary (E : ℚ) : fx_outcome E ∉ monetary_sentences := by
  unfold fx_outcome
  split
  · decide
  split
  · decide
  · decide

lemma fiscal_sentences_head : ∀ s ∈ fiscal_sentences, s.data.head? = some 'T' := by
  decide

lemma monetary_sentences_head : ∀ s ∈ monetary_sentences, s.data.head? = some 'T' := by
  decide

lemma fiscal_not_monetary : ∀ s ∈ fiscal_sentences, s ∉ monetary_sentences := by
  decide

lemma monetary_not_fiscal : ∀ s ∈ monetary_sentences, s ∉ fiscal_sentences := by
  decide

lemma fiscal_not_fx : ∀ s ∈ fiscal_sentences, s ∉ fx_sentences := by
  decide

lemma monetary_not_fx : ∀ s ∈ monetary_sentences, s ∉ fx_sentences := by
  decide

/-- For each fiscal option the narrative lookup succeeds, the sentence is one
of the three fiscal sentences, and symmetrically for the monetary option;
the narrative is the tariff sentence, the optional AD sentence, the two
policy sentences, and the FX summary, in order. -/
lemma description_eq_some (t ad E : ℚ) (f m : String)
    (hf : f ∈ fiscal_options) (hm : m ∈ monetary_options) :
    ∃ ft mt, descriptions_map.lookup f = some ft ∧
      monetary_map.lookup m = some mt ∧
      ft ∈ fiscal_sentences ∧ mt ∈ monetary_sentences ∧
      description t ad E f m =
        some (if 0 < ad
          then [tariff_text t (net_exports_boost t), ad_text ad, ft, mt, fx_outcome E]
          else [tariff_text t (net_exports_boost t), ft, mt, fx_outcome E]) := by
  simp only [fiscal_options, List.mem_cons, List.not_mem_nil, or_false] at hf
  simp only [monetary_options, List.mem_cons, List.not_mem_nil, or_false] at hm
  rcases hf with rfl | rfl | rfl <;> rcases hm with rfl | rfl | rfl <;>
    refine ⟨_, _, rfl, rfl, by decide, by decide, ?_⟩ <;>
    by_cases had : 0 < ad <;>
    simp [description, had, descriptions_map, monetary_map, List.lookup]

lemma fx_head_facts :
    ∀ s ∈ fx_sentences, s.data.head? ≠ some 'A' ∧ s.data.head? ≠ some 'H' := by
  decide

lemma fx_fiscal_disjoint : ∀ s ∈ fx_sentences, ∀ u ∈ fiscal_sentences, s ≠ u := by
  decide

lemma fx_monetary_disjoint : ∀ s ∈ fx_sentences, ∀ u ∈ monetary_sentences, s ≠ u := by
  decide

/-- An FX sentence other than the selected one appears nowhere in the
narrative list. -/
lemma fx_not_in_narrative (t ad : ℚ) (ft mt x fx : String)
    (hftm : ft ∈ fiscal_sentences) (hmtm : mt ∈ monetary_sentences)
    (hx : x ∈ fx_sentences) (hne : x ≠ fx) :
    x ∉ [tariff_text t (net_exports_boost t), ad_text ad, ft, mt, fx] ∧
    x ∉ [tariff_text t (net_exports_boost t), ft, mt, fx] := by
  have hA := (fx_head_facts x hx).1
  have hH := (fx_head_facts x hx).2
  have h1 : x ≠ tariff_text t (net_exports_boost t) := (tariff_text_ne _ _ x hA).symm
  have h2 : x ≠ ad_text ad := (ad_text_ne ad x hH).symm
  have h3 : x ≠ ft := fx_fiscal_disjoint x hx ft hftm
  have h4 : x ≠ mt := fx_monetary_disjoint x hx mt hmtm
  constructor <;> simp [h1, h2, h3, h4, hne]

/-- The default UI inputs are valid. -/
lemma valid_default : ValidInputs 2 1 "Neutral" "Neutral" := by
  refine ⟨by norm_num, by norm_num, by norm_num, by norm_num, ?_, ?_⟩ <;> decide

/-! ### Claim theorems -/

/-- C1: for every valid input the evaluator computes exactly
`net_exports_boost = tariff_shock * 0.6`,
`IS_shift = net_exports_boost - ad_contraction + fiscal_shift`,
`Y_new = Y0 + 0.8*IS_shift + 0.5*LM_shift`,
`r_new = r0 - 0.3*LM_shift + 0.2*IS_shift`,
`E_change = -0.5*(r0 - r_new) + 0.3*net_exports_boost`,
`E_new = E0 + E_change`, with `Y0 = 100`, `r0 = 4.0`, `E0 = 1.0`. -/
theorem evaluate_computes_spec_formulas (t ad : ℚ) (f m : String)
    (_h : ValidInputs t ad f m) :
    (evaluate t ad f m).net_exports_boost = t * 0.6 ∧
    (evaluate t ad f m).IS_shift =
      (evaluate t ad f m).net_exports_boost - ad + (evaluate t ad f m).fiscal_shift ∧
    (evaluate t ad f m).Y_new =
      Y0 + 0.8 * (evaluate t ad f m).IS_shift + 0.5 * (evaluate t ad f m).LM_shift ∧
    (evaluate t ad f m).r_new =
      r0 - 0.3 * (evaluate t ad f m).LM_shift + 0.2 * (evaluate t ad f m).IS_shift ∧
    (evaluate t ad f m).E_change =
      -0.5 * (r0 - (evaluate t ad f m).r_new) +
        0.3 * (evaluate t ad f m).net_exports_boost ∧
    (evaluate t ad f m).E_new = E0 + (evaluate t ad f m).E_change ∧
    Y0 = 100 ∧ r0 = 4.0 ∧ E0 = 1.0 :=
  ⟨rfl, rfl, rfl, rfl, rfl, rfl, rfl, rfl, rfl⟩

/-- C1 witness: the formulas instantiated at the default inputs. -/
theorem evaluate_computes_spec_formulas_witness :
    ValidInputs 2 1 "Neutral" "Neutral" ∧
    (evaluate 2 1 "Neutral" "Neutral").net_exports_boost = 2 * 0.6 ∧
    (evaluate 2 1 "Neutral" "Neutral").E_new =
      E0 + (evaluate 2 1 "Neutral" "Neutral").E_change :=
  ⟨valid_default,
   (evaluate_computes_spec_formulas 2 1 "Neutral" "Neutral" valid_default).1,
   (evaluate_computes_spec_formulas 2 1 "Neutral" "Neutral" valid_default).2.2.2.2.2.1⟩

/-- C2 counterexample: at (tariff_shock=2, ad_contraction=1, Neutral, Neutral)
the spec's asserted output tuple is false, because `E_new = 1.38`, not
`1.34` (the first three values are right). -/
theorem spec_example_refuted :
    ¬((evaluate 2 1 "Neutral" "Neutral").IS_shift = 0.2 ∧
      (evaluate 2 1 "Neutral" "Neutral").Y_new = 100.16 ∧
      (evaluate 2 1 "Neutral" "Neutral").r_new = 4.04 ∧
      (evaluate 2 1 "Neutral" "Neutral").E_new = 1.34) := by
  intro h
  have he := h.2.2.2
  rw [evaluate_Enew] at he
  norm_num [net_exports_boost, fiscal_shift_neutral, LM_shift_neutral,
    Y0, r0, E0] at he

/-- C2 amended: at (tariff_shock=2, ad_contraction=1, Neutral, Neutral) the
evaluator yields exactly `IS_shift = 0.2`, `Y_new = 100.16`, `r_new = 4.04`
and `E_new = 1.38`. -/
theorem spec_example_values :
    (evaluate 2 1 "Neutral" "Neutral").IS_shift = 0.2 ∧
    (evaluate 2 1 "Neutral" "Neutral").Y_new = 100.16 ∧
    (evaluate 2 1 "Neutral" "Neutral").r_new = 4.04 ∧
    (evaluate 2 1 "Neutral" "Neutral").E_new = 1.38 := by
  refine ⟨?_, ?_, ?_, ?_⟩ <;>
    norm_num [evaluate_IS, evaluate_Y, evaluate_r, evaluate_Enew,
      net_exports_boost, fiscal_shift_neutral, LM_shift_neutral, Y0, r0, E0]

/-- C3: over all nine fiscal×monetary combinations (with both sliders at 0),
`fiscal_shift` follows the table Neutral↦0, DebtPaydown↦-1.0, TaxCut↦0.5 and
`LM_shift` follows the table Neutral↦0, Ease↦1.0, Tighten↦-1.0. -/
theorem enum_shift_tables :
    ((evaluate 0 0 "Neutral" "Neutral").fiscal_shift = 0 ∧
     (evaluate 0 0 "Neutral" "Neutral").LM_shift = 0) ∧
    ((evaluate 0 0 "Neutral" "Eases Rates").fiscal_shift = 0 ∧
     (evaluate 0 0 "Neutral" "Eases Rates").LM_shift = 1.0) ∧
    ((evaluate 0 0 "Neutral" "Tightens Rates").fiscal_shift = 0 ∧
     (evaluate 0 0 "Neutral" "Tightens Rates").LM_shift = -1.0) ∧
    ((evaluate 0 0 "Debt Paydown (Contractionary)" "Neutral").fiscal_shift = -1.0 ∧
     (evaluate 0 0 "Debt Paydown (Contractionary)" "Neutral").LM_shift = 0) ∧
    ((evaluate 0 0 "Debt Paydown (Contractionary)" "Eases Rates").fiscal_shift = -1.0 ∧
     (evaluate 0 0 "Debt Paydown (Contractionary)" "Eases Rates").LM_shift = 1.0) ∧
    ((evaluate 0 0 "Debt Paydown (Contractionary)" "Tightens Rates").fiscal_shift = -1.0 ∧
     (evaluate 0 0 "Debt Paydown (Contractionary)" "Tightens Rates").LM_shift = -1.0) ∧
    ((evaluate 0 0 "Tax Cut (Mildly Expansionary)" "Neutral").fiscal_shift = 0.5 ∧
     (evaluate 0 0 "Tax Cut (Mildly Expansionary)" "Neutral").LM_shift = 0) ∧
    ((evaluate 0 0 "Tax Cut (Mildly Expansionary)" "Eases Rates").fiscal_shift = 0.5 ∧
     (evaluate 0 0 "Tax Cut (Mildly Expansionary)" "Eases Rates").LM_shift = 1.0) ∧
    ((evaluate 0 0 "Tax Cut (Mildly Expansionary)" "Tightens Rates").fiscal_shift = 0.5 ∧
     (evaluate 0 0 "Tax Cut (Mildly Expansionary)" "Tightens Rates").LM_shift = -1.0) :=
  ⟨⟨rfl, rfl⟩, ⟨rfl, rfl⟩, ⟨rfl, rfl⟩, ⟨rfl, rfl⟩, ⟨rfl, rfl⟩, ⟨rfl, rfl⟩,
   ⟨rfl, rfl⟩, ⟨rfl, rfl⟩, ⟨rfl, rfl⟩⟩

/-- C4: the evaluator and the full run (equilibrium, narrative, curve sample)
are pure functions of the four inputs: identical inputs give identical
outputs. -/
theorem evaluator_deterministic (t t' ad ad' : ℚ) (f f' m m' : String)
    (ht : t = t') (had : ad = ad') (hf : f = f') (hm : m = m') :
    evaluate t ad f m = evaluate t' ad' f' m' ∧
    run t ad f m = run t' ad' f' m' := by
  subst ht; subst had; subst hf; subst hm
  exact ⟨rfl, rfl⟩

/-- C4 witness: two runs on the default inputs coincide. -/
theorem evaluator_deterministic_witness :
    (2 : ℚ) = 2 ∧ run 2 1 "Neutral" "Neutral" = run 2 1 "Neutral" "Neutral" :=
  ⟨rfl, (evaluator_deterministic 2 2 1 1 "Neutral" "Neutral" "Neutral" "Neutral"
    rfl rfl rfl rfl).2⟩

/-- C7: the full run is total on the valid input domain: the dictionary
lookups and conditionals cover every enumerated value, so a result is always
produced. -/
theorem evaluator_total (t ad : ℚ) (f m : String) (h : ValidInputs t ad f m) :
    (run t ad f m).isSome = true := by
  obtain ⟨-, -, -, -, hf, hm⟩ := h
  simp only [fiscal_options, List.mem_cons, List.not_mem_nil, or_false] at hf
  simp only [monetary_options, List.mem_cons, List.not_mem_nil, or_false] at hm
  rcases hf with rfl | rfl | rfl <;> rcases hm with rfl | rfl | rfl <;> rfl

/-- C7 witness: a result is produced at the default inputs. -/
theorem evaluator_total_witness :
    ValidInputs 2 1 "Neutral" "Neutral" ∧
    (run 2 1 "Neutral" "Neutral").isSome = true :=
  ⟨valid_default, evaluator_total 2 1 "Neutral" "Neutral" valid_default⟩

/-- C8: with both sliders at 0 and both policies Neutral, every shift term is
zero and the outputs are exactly the baseline. -/
theorem zero_shock_identity :
    (evaluate 0 0 "Neutral" "Neutral").net_exports_boost = 0 ∧
    (evaluate 0 0 "Neutral" "Neutral").fiscal_shift = 0 ∧
    (evaluate 0 0 "Neutral" "Neutral").IS_shift = 0 ∧
    (evaluate 0 0 "Neutral" "Neutral").LM_shift = 0 ∧
    (evaluate 0 0 "Neutral" "Neutral").Y_new = 100 ∧
    (evaluate 0 0 "Neutral" "Neutral").r_new = 4.0 ∧
    (evaluate 0 0 "Neutral" "Neutral").E_change = 0 ∧
    (evaluate 0 0 "Neutral" "Neutral").E_new = 1.0 := by
  refine ⟨?_, ?_, ?_, ?_, ?_, ?_, ?_, ?_⟩ <;>
    norm_num [evaluate_net, evaluate_fiscal, evaluate_IS, evaluate_LM,
      evaluate_Y, evaluate_r, evaluate_Ech, evaluate_Enew,
      net_exports_boost, fiscal_shift_neutral, LM_shift_neutral, Y0, r0, E0]

/-- C5: for every valid input the curve sample has exactly 100 triples, its Y
values are linearly spaced (constant step 10/99) and strictly increasing from
95 to 105, and each triple carries `IS_curve` and `LM_curve` evaluated at its
Y. -/
theorem curve_sample_properties (t ad : ℚ) (f m : String)
    (_h : ValidInputs t ad f m) :
    (curve_sample (evaluate t ad f m).IS_shift (evaluate t ad f m).LM_shift).length
        = 100 ∧
    (((curve_sample (evaluate t ad f m).IS_shift (evaluate t ad f m).LM_shift).map
        (fun p => p.1)).head? = some 95) ∧
    (((curve_sample (evaluate t ad f m).IS_shift (evaluate t ad f m).LM_shift).map
        (fun p => p.1)).getLast? = some 105) ∧
    List.Chain' (· < ·)
      ((curve_sample (evaluate t ad f m).IS_shift (evaluate t ad f m).LM_shift).map
        (fun p => p.1)) ∧
    List.Chain' (fun a b => b = a + 10 / 99)
      ((curve_sample (evaluate t ad f m).IS_shift (evaluate t ad f m).LM_shift).map
        (fun p => p.1)) ∧
    ∀ p ∈ curve_sample (evaluate t ad f m).IS_shift (evaluate t ad f m).LM_shift,
      p.2.1 = IS_curve (evaluate t ad f m).IS_shift p.1 ∧
      p.2.2 = LM_curve (evaluate t ad f m).LM_shift p.1 := by
  refine ⟨?_, ?_, ?_, ?_, ?_, ?_⟩
  · simp [curve_sample, Y_vals_length]
  · rw [curve_sample_fst]; exact Y_vals_head
  · rw [curve_sample_fst]; exact Y_vals_last
  · rw [curve_sample_fst]; exact Y_vals_chain_lt
  · rw [curve_sample_fst]; exact Y_vals_chain_step
  · intro p hp
    simp only [curve_sample, List.mem_map] at hp
    obtain ⟨Y, -, rfl⟩ := hp
    exact ⟨rfl, rfl⟩

/-- C5 witness: the curve sample at the default inputs has 100 points with Y
running from 95 to 105. -/
theorem curve_sample_properties_witness :
    ValidInputs 2 1 "Neutral" "Neutral" ∧
    (curve_sample (evaluate 2 1 "Neutral" "Neutral").IS_shift
      (evaluate 2 1 "Neutral" "Neutral").LM_shift).length = 100 ∧
    (((curve_sample (evaluate 2 1 "Neutral" "Neutral").IS_shift
      (evaluate 2 1 "Neutral" "Neutral").LM_shift).map
        (fun p => p.1)).head? = some 95) :=
  ⟨valid_default,
   (curve_sample_properties 2 1 "Neutral" "Neutral" valid_default).1,
   (curve_sample_properties 2 1 "Neutral" "Neutral" valid_default).2.1⟩

/-- C9: with the other inputs fixed, `Y_new`, `r_new` and `E_new` are strictly
increasing in the tariff shock on [0,5] (one extra unit adds 0.48, 0.12 and
0.24 respectively) and strictly decreasing in the demand contraction. -/
theorem monotonicity_tariff_ad (f m : String) :
    (∀ t1 t2 ad : ℚ, 0 ≤ t1 → t1 < t2 → t2 ≤ 5 → 0 ≤ ad → ad ≤ 5 →
      (evaluate t1 ad f m).Y_new < (evaluate t2 ad f m).Y_new ∧
      (evaluate t1 ad f m).r_new < (evaluate t2 ad f m).r_new ∧
      (evaluate t1 ad f m).E_new < (evaluate t2 ad f m).E_new) ∧
    (∀ t ad : ℚ,
      (evaluate (t + 1) ad f m).Y_new = (evaluate t ad f m).Y_new + 0.48 ∧
      (evaluate (t + 1) ad f m).r_new = (evaluate t ad f m).r_new + 0.12 ∧
      (evaluate (t + 1) ad f m).E_new = (evaluate t ad f m).E_new + 0.24) ∧
    (∀ t ad1 ad2 : ℚ, 0 ≤ t → t ≤ 5 → 0 ≤ ad1 → ad1 < ad2 → ad2 ≤ 5 →
      (evaluate t ad2 f m).Y_new < (evaluate t ad1 f m).Y_new ∧
      (evaluate t ad2 f m).r_new < (evaluate t ad1 f m).r_new ∧
      (evaluate t ad2 f m).E_new < (evaluate t ad1 f m).E_new) := by
  refine ⟨?_, ?_, ?_⟩
  · intro t1 t2 ad h1 h2 h3 h4 h5
    refine ⟨?_, ?_, ?_⟩ <;>
      simp only [evaluate_Y, evaluate_r, evaluate_Enew, net_exports_boost] <;>
      linarith
  · intro t ad
    refine ⟨?_, ?_, ?_⟩ <;>
      simp only [evaluate_Y, evaluate_r, evaluate_Enew, net_exports_boost] <;>
      ring
  · intro t ad1 ad2 h1 h2 h3 h4 h5
    refine ⟨?_, ?_, ?_⟩ <;>
      simp only [evaluate_Y, evaluate_r, evaluate_Enew, net_exports_boost] <;>
      linarith

/-- C9 witness: the monotonicity facts at tariff shocks 2 < 3 and demand
contractions 0 < 1 with Neutral policies. -/
theorem monotonicity_tariff_ad_witness :
    ((0 : ℚ) ≤ 2 ∧ (2 : ℚ) < 3 ∧ (3 : ℚ) ≤ 5 ∧ (0 : ℚ) ≤ 1 ∧ (1 : ℚ) ≤ 5 ∧
      (0 : ℚ) < 1) ∧
    (evaluate 2 1 "Neutral" "Neutral").Y_new <
      (evaluate 3 1 "Neutral" "Neutral").Y_new ∧
    (evaluate 3 1 "Neutral" "Neutral").Y_new =
      (evaluate 2 1 "Neutral" "Neutral").Y_new + 0.48 ∧
    (evaluate 2 1 "Neutral" "Neutral").E_new <
      (evaluate 2 0 "Neutral" "Neutral").E_new :=
  ⟨⟨by norm_num, by norm_num, by norm_num, by norm_num, by norm_num, by norm_num⟩,
   ((monotonicity_tariff_ad "Neutral" "Neutral").1 2 3 1 (by norm_num)
     (by norm_num) (by norm_num) (by norm_num) (by norm_num)).1,
   by
     have h := ((monotonicity_tariff_ad "Neutral" "Neutral").2.1 2 1).1
     norm_num at h ⊢
     exact h,
   ((monotonicity_tariff_ad "Neutral" "Neutral").2.2 2 0 1 (by norm_num)
     (by norm_num) (by norm_num) (by norm_num) (by norm_num)).2.2⟩

/-- C6: the narrative contains the AD-drag sentence iff `ad_contraction > 0`,
and exactly the FX sentence matching the sign of `E_change` (strengthen for
positive, weaken for negative, stable for zero). -/
theorem narrative_fx_and_ad_selection (t ad : ℚ) (f m : String)
    (h : ValidInputs t ad f m) :
    ∃ d, description t ad (evaluate t ad f m).E_change f m = some d ∧
      (ad_text ad ∈ d ↔ 0 < ad) ∧
      (0 < (evaluate t ad f m).E_change →
        strengthen_text ∈ d ∧ weaken_text ∉ d ∧ stable_text ∉ d) ∧
      ((evaluate t ad f m).E_change < 0 →
        weaken_text ∈ d ∧ strengthen_text ∉ d ∧ stable_text ∉ d) ∧
      ((evaluate t ad f m).E_change = 0 →
        stable_text ∈ d ∧ strengthen_text ∉ d ∧ weaken_text ∉ d) := by
  obtain ⟨-, -, -, -, hf, hm⟩ := h
  obtain ⟨ft, mt, -, -, hftm, hmtm, hd⟩ :=
    description_eq_some t ad (evaluate t ad f m).E_change f m hf hm
  refine ⟨_, hd, ?_, ?_, ?_, ?_⟩
  · have a1 : ad_text ad ≠ tariff_text t (net_exports_boost t) :=
      ad_text_ne _ _ (by rw [tariff_text_head]; decide)
    have a2 : ad_text ad ≠ ft :=
      ad_text_ne _ _ (by rw [fiscal_sentences_head ft hftm]; decide)
    have a3 : ad_text ad ≠ mt :=
      ad_text_ne _ _ (by rw [monetary_sentences_head mt hmtm]; decide)
    have a4 : ad_text ad ≠ fx_outcome (evaluate t ad f m).E_change :=
      ad_text_ne _ _ (fx_head_facts _ (fx_outcome_mem _)).2
    by_cases had : 0 < ad
    · simp [had]
    · simp [had, a1, a2, a3, a4]
  · intro hEpos
    have hfx : fx_outcome (evaluate t ad f m).E_change = strengthen_text := by
      rw [fx_outcome, if_pos hEpos]
    have hw := fx_not_in_narrative t ad ft mt weaken_text
      (fx_outcome (evaluate t ad f m).E_change) hftm hmtm
      (by decide) (by rw [hfx]; decide)
    have hs := fx_not_in_narrative t ad ft mt stable_text
      (fx_outcome (evaluate t ad f m).E_change) hftm hmtm
      (by decide) (by rw [hfx]; decide)
    by_cases had : 0 < ad
    · rw [if_pos had]
      exact ⟨by simp [hfx], hw.1, hs.1⟩
    · rw [if_neg had]
      exact ⟨by simp [hfx], hw.2, hs.2⟩
  · intro hEneg
    have hfx : fx_outcome (evaluate t ad f m).E_change = weaken_text := by
      rw [fx_outcome, if_neg (by linarith), if_pos hEneg]
    have hw := fx_not_in_narrative t ad ft mt strengthen_text
      (fx_outcome (evaluate t ad f m).E_change) hftm hmtm
      (by decide) (by rw [hfx]; decide)
    have hs := fx_not_in_narrative t ad ft mt stable_text
      (fx_outcome (evaluate t ad f m).E_change) hftm hmtm
      (by decide) (by rw [hfx]; decide)
    by_cases had : 0 < ad
    · rw [if_pos had]
      exact ⟨by simp [hfx], hw.1, hs.1⟩
    · rw [if_neg had]
      exact ⟨by simp [hfx], hw.2, hs.2⟩
  · intro hEzero
    have hfx : fx_outcome (evaluate t ad f m).E_change = stable_text := by
      rw [fx_outcome, if_neg (by rw [hEzero]; exact lt_irrefl 0),
        if_neg (by rw [hEzero]; exact lt_irrefl 0)]
    have hw := fx_not_in_narrative t ad ft mt strengthen_text
      (fx_outcome (evaluate t ad f m).E_change) hftm hmtm
      (by decide) (by rw [hfx]; decide)
    have hs := fx_not_in_narrative t ad ft mt weaken_text
      (fx_outcome (evaluate t ad f m).E_change) hftm hmtm
      (by decide) (by rw [hfx]; decide)
    by_cases had : 0 < ad
    · rw [if_pos had]
      exact ⟨by simp [hfx], hw.1, hs.1⟩
    · rw [if_neg had]
      exact ⟨by simp [hfx], hw.2, hs.2⟩

/-- C6 witness: at the default inputs `E_change = 0.38 > 0`, the AD sentence
is present and the strengthen sentence is selected. -/
theorem narrative_fx_and_ad_selection_witness :
    ValidInputs 2 1 "Neutral" "Neutral" ∧
    (∃ d, description 2 1 (evaluate 2 1 "Neutral" "Neutral").E_change
        "Neutral" "Neutral" = some d ∧
      (ad_text 1 ∈ d ↔ (0 : ℚ) < 1) ∧
      (0 < (evaluate 2 1 "Neutral" "Neutral").E_change →
        strengthen_text ∈ d ∧ weaken_text ∉ d ∧ stable_text ∉ d) ∧
      ((evaluate 2 1 "Neutral" "Neutral").E_change < 0 →
        weaken_text ∈ d ∧ strengthen_text ∉ d ∧ stable_text ∉ d) ∧
      ((evaluate 2 1 "Neutral" "Neutral").E_change = 0 →
        stable_text ∈ d ∧ strengthen_text ∉ d ∧ weaken_text ∉ d)) :=
  ⟨valid_default,
   narrative_fx_and_ad_selection 2 1 "Neutral" "Neutral" valid_default⟩

/-- C10: the narrative always starts with the tariff sentence and contains
exactly one fiscal, one monetary and one FX sentence; it has 5 sentences when
`ad_contraction > 0` and 4 otherwise. -/
theorem narrative_structure (t ad : ℚ) (f m : String)
    (h : ValidInputs t ad f m) :
    ∃ d, description t ad (evaluate t ad f m).E_change f m = some d ∧
      d.head? = some (tariff_text t (net_exports_boost t)) ∧
      d.countP (fun s => decide (s ∈ fiscal_sentences)) = 1 ∧
      d.countP (fun s => decide (s ∈ monetary_sentences)) = 1 ∧
      d.countP (fun s => decide (s ∈ fx_sentences)) = 1 ∧
      d.length = if 0 < ad then 5 else 4 := by
  obtain ⟨-, -, -, -, hf, hm⟩ := h
  obtain ⟨ft, mt, -, -, hftm, hmtm, hd⟩ :=
    description_eq_some t ad (evaluate t ad f m).E_change f m hf hm
  have t_nf : tariff_text t (net_exports_boost t) ∉ fiscal_sentences :=
    tariff_text_not_mem _ _ _ (by decide)
  have t_nm : tariff_text t (net_exports_boost t) ∉ monetary_sentences :=
    tariff_text_not_mem _ _ _ (by decide)
  have t_nx : tariff_text t (net_exports_boost t) ∉ fx_sentences :=
    tariff_text_not_mem _ _ _ (by decide)
  have a_nf : ad_text ad ∉ fiscal_sentences := ad_text_not_mem _ _ (by decide)
  have a_nm : ad_text ad ∉ monetary_sentences := ad_text_not_mem _ _ (by decide)
  have a_nx : ad_text ad ∉ fx_sentences := ad_text_not_mem _ _ (by decide)
  have ft_nm : ft ∉ monetary_sentences := fiscal_not_monetary ft hftm
  have ft_nx : ft ∉ fx_sentences := fiscal_not_fx ft hftm
  have mt_nf : mt ∉ fiscal_sentences := monetary_not_fiscal mt hmtm
  have mt_nx : mt ∉ fx_sentences := monetary_not_fx mt hmtm
  have fx_f : fx_outcome (evaluate t ad f m).E_change ∉ fiscal_sentences :=
    fx_outcome_not_fiscal _
  have fx_m : fx_outcome (evaluate t ad f m).E_change ∉ monetary_sentences :=
    fx_outcome_not_monetary _
  have fx_x : fx_outcome (evaluate t ad f m).E_change ∈ fx_sentences :=
    fx_outcome_mem _
  refine ⟨_, hd, ?_, ?_, ?_, ?_, ?_⟩ <;> by_cases had : 0 < ad
  · simp [had]
  · simp [had]
  · simp [had, List.countP_cons, t_nf, a_nf, hftm, mt_nf, fx_f]
  · simp [had, List.countP_cons, t_nf, hftm, mt_nf, fx_f]
  · simp [had, List.countP_cons, t_nm, a_nm, ft_nm, hmtm, fx_m]
  · simp [had, List.countP_cons, t_nm, ft_nm, hmtm, fx_m]
  · simp [had, List.countP_cons, t_nx, a_nx, ft_nx, mt_nx, fx_x]
  · simp [had, List.countP_cons, t_nx, ft_nx, mt_nx, fx_x]
  · simp [had]
  · simp [had]

/-- C10 witness: at the default inputs the narrative has 5 sentences, led by
the tariff sentence. -/
theorem narrative_structure_witness :
    ValidInputs 2 1 "Neutral" "Neutral" ∧
    (∃ d, description 2 1 (evaluate 2 1 "Neutral" "Neutral").E_change
        "Neutral" "Neutral" = some d ∧
      d.head? = some (tariff_text 2 (net_exports_boost 2)) ∧
      d.countP (fun s => decide (s ∈ fiscal_sentences)) = 1 ∧
      d.countP (fun s => decide (s ∈ monetary_sentences)) = 1 ∧
      d.countP (fun s => decide (s ∈ fx_sentences)) = 1 ∧
      d.length = if (0 : ℚ) < 1 then 5 else 4) :=
  ⟨valid_default, narrative_structure 2 1 "Neutral" "Neutral" valid_default⟩

end JRP
